import Mathlib

set_option maxRecDepth 10000

/-!
Verification of `src/pwm_gui.cpp` (Raspberry Pi LED PWM GUI).

The program is a Qt GUI driving three LEDs via the pigpio library:
a manual slider for the red LED, a 20 ms timer fading green/blue in
complementary fashion, and an application shell that initializes the
driver, registers an `aboutToQuit` cleanup handler, builds the GUI and
runs the event loop.

The embedding below models every driver interaction (`gpioSetMode`,
`gpioPWM`, `gpioTerminate`) as an element of an event list, the fade
timer as a pure state-transition function on its `TimerState` struct,
the slider as its value-changed callback, and `main` as a function from
the `gpioInitialise` result and the run scenario to the exit code and
the emitted driver-call trace.
-/

/-- GPIO pin number of the red LED (`constexpr int RED_LED{17}`). -/
def RED_LED : Int := 17

/-- GPIO pin number of the green LED (`constexpr int GREEN_LED{27}`). -/
def GREEN_LED : Int := 27

/-- GPIO pin number of the blue LED (`constexpr int BLUE_LED{22}`). -/
def BLUE_LED : Int := 22

/-- One call into the pigpio driver, as observed at the driver boundary:
`gpioSetMode(pin, PI_OUTPUT)`, `gpioPWM(pin, duty)` or `gpioTerminate()`. -/
inductive DriverCall where
  | setMode (pin : Int)
  | setPWM (pin : Int) (duty : Int)
  | terminate
  deriving DecidableEq, Repr

/-- The message of the `std::runtime_error` thrown by `setupGpio`. -/
def gpioInitFailMsg : String := "GPIO initialization failed"

/-- The three `gpioSetMode(pin, PI_OUTPUT)` calls made by `setupGpio`. -/
def setModeCalls : List DriverCall :=
  [.setMode RED_LED, .setMode GREEN_LED, .setMode BLUE_LED]

/-- `setupGpio`: throws when `gpioInitialise() < 0`, otherwise configures the
three LED pins as outputs.  The `gpioInitialise` return value is the
parameter; the emitted `gpioSetMode` calls are the result. -/
def setupGpio (gpioInitialiseResult : Int) : Except String (List DriverCall) :=
  if gpioInitialiseResult < 0 then
    .error gpioInitFailMsg
  else
    .ok setModeCalls

/-- The `TimerState` struct captured by the fade timer's lambda:
`int brightness{0}` and `bool increasing{true}`. -/
structure TimerState where
  brightness : Int
  increasing : Bool
  deriving DecidableEq, Repr

/-- The initial fade state: `brightness` 0, `increasing` true. -/
def initState : TimerState := { brightness := 0, increasing := true }

/-- `constexpr int step{2}` inside the timer lambda. -/
def step : Int := 2

/-- The state update performed by one run of the timer lambda, after the two
`gpioPWM` emissions: add or subtract `step`, clamp at 255 / 0 and flip the
direction flag on clamping. -/
def tickUpdate (s : TimerState) : TimerState :=
  if s.increasing then
    let b := s.brightness + step
    if b ≥ 255 then { brightness := 255, increasing := false }
    else { brightness := b, increasing := true }
  else
    let b := s.brightness - step
    if b ≤ 0 then { brightness := 0, increasing := true }
    else { brightness := b, increasing := false }

/-- Fade state at the start of tick `n`: `n` runs of the timer lambda's
update applied to the initial state. -/
def fadeState : Nat → TimerState
  | 0 => initState
  | n + 1 => tickUpdate (fadeState n)

/-- The two `gpioPWM` calls emitted at the start of one run of the timer
lambda: `gpioPWM(GREEN_LED, state->brightness)` then
`gpioPWM(BLUE_LED, 255 - state->brightness)`. -/
def tickEmit (s : TimerState) : List DriverCall :=
  [.setPWM GREEN_LED s.brightness, .setPWM BLUE_LED (255 - s.brightness)]

/-- The driver calls emitted at tick `n` (ticks numbered from 0). -/
def tickCalls (n : Nat) : List DriverCall := tickEmit (fadeState n)

/-- Duty cycle emitted to the green LED at tick `n`. -/
def greenEmit (n : Nat) : Int := (fadeState n).brightness

/-- Duty cycle emitted to the blue LED at tick `n`. -/
def blueEmit (n : Nat) : Int := 255 - (fadeState n).brightness

/-- The sequence the spec describes for channel A: `0, 2, 4, ..., 254, 255,
253, ..., 1`, then repeating (period 256).  Written from the spec's words,
to be compared with the code-derived `greenEmit`. -/
def fadeSpecSeq (n : Nat) : Int :=
  let m := n % 256
  if m ≤ 127 then 2 * (m : Int) else 255 - 2 * ((m : Int) - 128)

/-- The slider widget built by `createLedSlider`, reduced to what is
observable at the driver boundary: the configured range, the initial value,
and the `valueChanged` callback. -/
structure Slider where
  rangeMin : Int
  rangeMax : Int
  initialValue : Int
  onChange : Int → List DriverCall

/-- `createLedSlider`: range `setRange(0, 255)`, initial `setValue(0)`, and a
`valueChanged` connection running `gpioPWM(gpioPin, value)` once per change. -/
def createLedSlider (gpioPin : Int) : Slider :=
  { rangeMin := 0
    rangeMax := 255
    initialValue := 0
    onChange := fun value => [.setPWM gpioPin value] }

/-- The one slider `createGui` builds: `createLedSlider("Red LED", RED_LED)`. -/
def redSlider : Slider := createLedSlider RED_LED

/-- A duty-cycle bound on a driver call: every `gpioPWM` call carries a duty
in `[0, 255]`; other calls carry none. -/
def dutyInRange : DriverCall → Prop
  | .setPWM _ d => 0 ≤ d ∧ d ≤ 255
  | _ => True

instance : DecidablePred dutyInRange := fun c => by
  cases c <;> simp [dutyInRange] <;> infer_instance

/-- How a run of the application ends.  `exitButton` and `windowClose` both
stop the Qt event loop, so `app.exec()` returns and Qt fires the
`aboutToQuit` handler once; `loopCalls` are whatever driver calls the slider
and the fade timer made while the event loop ran.  `guiThrow` is the startup
exception thrown during GUI construction after `setupGpio` succeeded: the
event loop never starts, so `aboutToQuit` never fires and control reaches
the `catch` block. -/
inductive RunScenario where
  | exitButton (loopCalls : List DriverCall)
  | windowClose (loopCalls : List DriverCall)
  | guiThrow
  deriving DecidableEq, Repr

/-- What a run of `main` produces: the process exit code, the full trace of
driver calls, whether the GUI window was shown (`window->show()` reached),
and how many times `gpioInitialise` was attempted. -/
structure MainOutcome where
  exitCode : Int
  calls : List DriverCall
  windowShown : Bool
  initAttempts : Nat
  deriving DecidableEq, Repr

/-- The body of the `aboutToQuit` handler registered in `main`:
`gpioPWM(RED_LED, 0)`, `gpioPWM(GREEN_LED, 0)`, `gpioPWM(BLUE_LED, 0)`,
`gpioTerminate()`. -/
def shutdownCalls : List DriverCall :=
  [.setPWM RED_LED 0, .setPWM GREEN_LED 0, .setPWM BLUE_LED 0, .terminate]

/-- `main`, as a function of the `gpioInitialise` result and the scenario.
If `setupGpio` throws, the `catch` block runs `gpioTerminate()` and returns
1 (the `aboutToQuit` connection was never made).  Otherwise the connection
is made; if GUI construction then throws, the handler is registered but the
event loop never runs, so only the `catch` block's `gpioTerminate()` runs
and `main` returns 1 with the window never shown.  Otherwise the window is
shown, the event loop runs (producing the scenario's `loopCalls`), and on
quit — via the exit button's `QApplication::quit()` or the window close —
`app.exec()` returns 0 after firing `aboutToQuit` exactly once. -/
def mainRun (gpioInitialiseResult : Int) (s : RunScenario) : MainOutcome :=
  match setupGpio gpioInitialiseResult with
  | .error _ =>
      { exitCode := 1, calls := [.terminate], windowShown := false, initAttempts := 1 }
  | .ok modeCalls =>
      match s with
      | .guiThrow =>
          { exitCode := 1, calls := modeCalls ++ [.terminate],
            windowShown := false, initAttempts := 1 }
      | .exitButton loopCalls =>
          { exitCode := 0, calls := modeCalls ++ loopCalls ++ shutdownCalls,
            windowShown := true, initAttempts := 1 }
      | .windowClose loopCalls =>
          { exitCode := 0, calls := modeCalls ++ loopCalls ++ shutdownCalls,
            windowShown := true, initAttempts := 1 }

/-! ## Helper lemmas about the fade engine -/

/-- One update keeps the brightness in `[0, 255]`. -/
lemma tickUpdate_range (s : TimerState) (h0 : 0 ≤ s.brightness)
    (h255 : s.brightness ≤ 255) :
    0 ≤ (tickUpdate s).brightness ∧ (tickUpdate s).brightness ≤ 255 := by
  rcases s with ⟨b, inc⟩
  simp only [tickUpdate, step] at *
  cases inc <;> simp only [Bool.false_eq_true, if_true, if_false] <;>
    split <;> simp only [] <;> constructor <;> omega

/-- The brightness stored in the fade state is always in `[0, 255]`. -/
lemma fade_range (n : Nat) :
    0 ≤ (fadeState n).brightness ∧ (fadeState n).brightness ≤ 255 := by
  induction n with
  | zero => decide
  | succ k ih => exact tickUpdate_range _ ih.1 ih.2

/-- The direction flag flips on an update exactly when the update clamps the
brightness at the matching boundary. -/
lemma tickUpdate_flip (s : TimerState) :
    ((tickUpdate s).increasing ≠ s.increasing) ↔
      ((s.increasing = true ∧ (tickUpdate s).brightness = 255) ∨
       (s.increasing = false ∧ (tickUpdate s).brightness = 0)) := by
  rcases s with ⟨b, inc⟩
  cases inc <;> simp only [tickUpdate, step, Bool.false_eq_true, if_true, if_false] <;>
    split <;> simp <;> omega

/-- The fade state is periodic: 256 updates return to the start. -/
lemma fadeState_add_256 (n : Nat) : fadeState (n + 256) = fadeState n := by
  induction n with
  | zero => decide
  | succ k ih =>
      have h : k + 1 + 256 = (k + 256) + 1 := by omega
      rw [h]
      show tickUpdate (fadeState (k + 256)) = tickUpdate (fadeState k)
      rw [ih]

/-- The fade state depends only on the tick count modulo 256. -/
lemma fadeState_mod (n : Nat) : fadeState n = fadeState (n % 256) := by
  induction n using Nat.strong_induction_on with
  | _ n ih =>
      by_cases h : n < 256
      · rw [Nat.mod_eq_of_lt h]
      · have h2 : n - 256 + 256 = n := by omega
        have h3 := fadeState_add_256 (n - 256)
        rw [h2] at h3
        rw [h3, ih (n - 256) (by omega)]
        congr 1
        omega

/-- Over one full period the brightness table matches the spec sequence. -/
lemma fade_table (m : Fin 256) :
    (fadeState m.val).brightness = fadeSpecSeq m.val := by
  revert m
  decide

/-- The spec sequence depends only on the tick count modulo 256. -/
lemma fadeSpecSeq_mod (n : Nat) : fadeSpecSeq (n % 256) = fadeSpecSeq n := by
  simp only [fadeSpecSeq, Nat.mod_mod_of_dvd n dvd_rfl]

/-! ## Claim theorems -/

/-- Claim C1, counterexample: the claim asserts that the shutdown sequence
emits duty cycle 0 to all three channels on the startup-exception path taken
when GUI construction throws after `setupGpio` succeeded.  On that path
(`gpioInitialise` result 0, scenario `guiThrow`) the code emits no `gpioPWM`
call at all: the `aboutToQuit` handler never fires because `app.exec()` is
never reached, and the `catch` block only calls `gpioTerminate()`. -/
theorem shutdown_guiThrow_counterexample :
    (mainRun 0 RunScenario.guiThrow).calls =
      [DriverCall.setMode RED_LED, DriverCall.setMode GREEN_LED,
       DriverCall.setMode BLUE_LED, DriverCall.terminate] ∧
    DriverCall.setPWM RED_LED 0 ∉ (mainRun 0 RunScenario.guiThrow).calls ∧
    DriverCall.setPWM GREEN_LED 0 ∉ (mainRun 0 RunScenario.guiThrow).calls ∧
    DriverCall.setPWM BLUE_LED 0 ∉ (mainRun 0 RunScenario.guiThrow).calls := by
  decide

/-- Claim C1, amended: after successful driver initialization, exit via the
exit button or via window close runs the shutdown sequence exactly once —
the trace ends with duty 0 to red, green and blue followed by the driver
release, appended once after the event-loop calls.  On a startup exception
thrown during GUI construction after successful initialization, only the
driver release runs; no zero duty cycles are emitted. -/
theorem shutdown_exactly_once (r : Int) (h : 0 ≤ r)
    (loopCalls : List DriverCall) :
    (mainRun r (RunScenario.exitButton loopCalls)).calls =
      setModeCalls ++ loopCalls ++ shutdownCalls ∧
    (mainRun r (RunScenario.windowClose loopCalls)).calls =
      setModeCalls ++ loopCalls ++ shutdownCalls ∧
    (mainRun r RunScenario.guiThrow).calls =
      setModeCalls ++ [DriverCall.terminate] := by
  have hr : ¬ r < 0 := not_lt.mpr h
  simp [mainRun, setupGpio, hr]

/-- Claim C1, witness for the amended theorem at `r = 0`, empty loop. -/
theorem shutdown_exactly_once_witness :
    (mainRun 0 (RunScenario.exitButton [])).calls =
      setModeCalls ++ [] ++ shutdownCalls ∧
    (mainRun 0 (RunScenario.windowClose [])).calls =
      setModeCalls ++ [] ++ shutdownCalls ∧
    (mainRun 0 RunScenario.guiThrow).calls =
      setModeCalls ++ [DriverCall.terminate] :=
  shutdown_exactly_once 0 (by decide) []

/-- Claim C2: starting from brightness 0, direction increasing, step 2, the
duty cycle emitted to the green LED at tick `n` is the `n`-th element of the
sequence `0, 2, ..., 254, 255, 253, ..., 1` repeating with period 256: it
wraps exactly at 0 and 255 and never skips past them. -/
theorem fade_sequence (n : Nat) : greenEmit n = fadeSpecSeq n := by
  unfold greenEmit
  rw [fadeState_mod n, ← fadeSpecSeq_mod n]
  exact fade_table ⟨n % 256, Nat.mod_lt n (by norm_num)⟩

/-- Claim C3: after exactly 128 ticks from the initial state the stored
level is 255 (the overshoot to 256 on the 128th update is clamped, not
wrapped: tick 127 still holds 254 increasing) and the direction has flipped
to decreasing. -/
theorem fade_tick128 :
    fadeState 127 = { brightness := 254, increasing := true } ∧
    fadeState 128 = { brightness := 255, increasing := false } := by
  decide

/-- Claim C4: at every tick the blue and green emissions sum to exactly 255,
blue being the exact complement `255 - level` of green, and the tick emits
exactly these two PWM calls. -/
theorem fade_complement (n : Nat) :
    blueEmit n + greenEmit n = 255 ∧
    blueEmit n = 255 - greenEmit n ∧
    tickCalls n = [DriverCall.setPWM GREEN_LED (greenEmit n),
                   DriverCall.setPWM BLUE_LED (blueEmit n)] := by
  unfold blueEmit greenEmit tickCalls tickEmit
  exact ⟨by ring, rfl, rfl⟩

/-- Claim C5: every duty cycle passed to `gpioPWM` lies in `[0, 255]`: the
slider callback forwards its value `v` unchanged (and Qt delivers only
values inside the configured range 0–255, the hypotheses), and both
fade-engine emissions on every tick are in range. -/
theorem duty_in_range (v : Int) (h0 : 0 ≤ v) (h1 : v ≤ 255) :
    (∀ c ∈ redSlider.onChange v, dutyInRange c) ∧
    ∀ n : Nat, ∀ c ∈ tickCalls n, dutyInRange c := by
  constructor
  · intro c hc
    simp only [redSlider, createLedSlider, List.mem_singleton] at hc
    subst hc
    exact ⟨h0, h1⟩
  · intro n c hc
    have hr := fade_range n
    simp only [tickCalls, tickEmit, List.mem_cons, List.not_mem_nil,
      or_false] at hc
    rcases hc with h | h <;> subst h <;> exact ⟨by omega, by omega⟩

/-- Claim C5, witness at slider value 7. -/
theorem duty_in_range_witness :
    (∀ c ∈ redSlider.onChange 7, dutyInRange c) ∧
    ∀ n : Nat, ∀ c ∈ tickCalls n, dutyInRange c :=
  duty_in_range 7 (by decide) (by decide)

/-- Claim C6: the stored level never leaves `[0, 255]` (no observable
overshoot), and the direction flag changes across a tick exactly when the
level is clamped at the matching boundary: increasing flips to decreasing
exactly when the new level is 255, and decreasing flips to increasing
exactly when the new level is 0 — so changes strictly alternate between the
two boundaries. -/
theorem fade_direction_boundary (n : Nat) :
    (0 ≤ (fadeState n).brightness ∧ (fadeState n).brightness ≤ 255) ∧
    (((fadeState (n + 1)).increasing ≠ (fadeState n).increasing) ↔
      (((fadeState n).increasing = true ∧
        (fadeState (n + 1)).brightness = 255) ∨
       ((fadeState n).increasing = false ∧
        (fadeState (n + 1)).brightness = 0))) :=
  ⟨fade_range n, tickUpdate_flip (fadeState n)⟩

/-- Claim C7: every change of the red slider's value to `v` produces exactly
one synchronous driver call, `gpioPWM(RED_LED, v)` — a one-element call
list, no debouncing or rate limiting — and the slider's configured range is
0 to 255. -/
theorem slider_single_call (v : Int) :
    redSlider.onChange v = [DriverCall.setPWM RED_LED v] ∧
    (redSlider.onChange v).length = 1 ∧
    redSlider.rangeMin = 0 ∧ redSlider.rangeMax = 255 :=
  ⟨rfl, rfl, rfl, rfl⟩

/-- Claim C8: if `gpioInitialise` fails the process exits with code 1, the
window is never shown and initialization is attempted exactly once (no
retry); on a normal exit (button or window close after successful
initialization) the exit code is 0. -/
theorem startup_exit_codes (r : Int) (s : RunScenario)
    (loopCalls : List DriverCall) :
    (r < 0 → (mainRun r s).exitCode = 1 ∧ (mainRun r s).windowShown = false) ∧
    (0 ≤ r → (mainRun r (RunScenario.exitButton loopCalls)).exitCode = 0 ∧
             (mainRun r (RunScenario.windowClose loopCalls)).exitCode = 0) ∧
    (mainRun r s).initAttempts = 1 := by
  by_cases hr : r < 0
  · refine ⟨fun _ => ?_, fun h2 => absurd hr (not_lt.mpr h2), ?_⟩ <;>
      cases s <;> simp [mainRun, setupGpio, hr]
  · refine ⟨fun h2 => absurd h2 hr, fun _ => ?_, ?_⟩ <;>
      cases s <;> simp [mainRun, setupGpio, hr]

/-- Claim C8, witness: failing initialization at `-1`, normal runs at `0`. -/
theorem startup_exit_codes_witness :
    ((mainRun (-1) (RunScenario.exitButton [])).exitCode = 1 ∧
     (mainRun (-1) (RunScenario.exitButton [])).windowShown = false) ∧
    ((mainRun 0 (RunScenario.exitButton [])).exitCode = 0 ∧
     (mainRun 0 (RunScenario.windowClose [])).exitCode = 0) ∧
    (mainRun (-1) (RunScenario.exitButton [])).initAttempts = 1 :=
  ⟨(startup_exit_codes (-1) (RunScenario.exitButton []) []).1 (by decide),
   (startup_exit_codes 0 (RunScenario.exitButton []) []).2.1 (by decide),
   (startup_exit_codes (-1) (RunScenario.exitButton []) []).2.2⟩

/-- Claim C9: the fade engine is periodic with period 256: for every `n` the
state after `n + 256` ticks equals the state after `n` ticks, and the pair
of duty cycles emitted at tick `n + 256` equals the pair emitted at tick
`n`. -/
theorem fade_periodic (n : Nat) :
    fadeState (n + 256) = fadeState n ∧ tickCalls (n + 256) = tickCalls n := by
  refine ⟨fadeState_add_256 n, ?_⟩
  unfold tickCalls
  rw [fadeState_add_256 n]

/-- Claim C10: on the startup failure path the driver's terminate operation
runs even when initialization itself failed outright — the whole trace is
the single `gpioTerminate()` from the `catch` block — and for the other
startup exception (GUI construction throwing) the `catch` block likewise
reaches `gpioTerminate()`, whatever the initialization result. -/
theorem terminate_unconditional (r : Int) (s : RunScenario) :
    (r < 0 → (mainRun r s).calls = [DriverCall.terminate]) ∧
    DriverCall.terminate ∈ (mainRun r RunScenario.guiThrow).calls := by
  constructor
  · intro hr
    cases s <;> simp [mainRun, setupGpio, hr]
  · by_cases hr : r < 0 <;> simp [mainRun, setupGpio, hr, setModeCalls]

/-- Claim C10, witness: init failure at `-1`; GUI throw after success at
`0`. -/
theorem terminate_unconditional_witness :
    (mainRun (-1) (RunScenario.exitButton [])).calls =
      [DriverCall.terminate] ∧
    DriverCall.terminate ∈ (mainRun 0 RunScenario.guiThrow).calls :=
  ⟨(terminate_unconditional (-1) (RunScenario.exitButton [])).1 (by decide),
   (terminate_unconditional 0 (RunScenario.exitButton [])).2⟩
